import Mathlib

/-!
Shallow embedding of the CORD-19 data-explorer pipeline (src/main.py).

A dataframe is a list of named columns; a column is a list of cells.
A cell is either null (NaN/NaT), a string, an integer, or a datetime
value (modelled as a calendar date, the only part the pipeline uses).
The pandas operations the program relies on (fillna, astype(str) followed
by to_datetime with errors coerced, value_counts, sort_index, head,
boolean-mask filtering) are embedded by their value-level semantics on
these lists.
-/

namespace Cord19

/-- A datetime value; the pipeline only ever reads the year component. -/
structure Date where
  y : Nat
  m : Nat
  d : Nat
deriving DecidableEq, Repr

/-- One cell of the tabular dataset: missing (NaN/NaT), text, integer, or
datetime. -/
inductive Cell where
  | null : Cell
  | str : String → Cell
  | intV : Int → Cell
  | date : Date → Cell
deriving DecidableEq, Repr

/-- A column is the ordered list of its cells. -/
abbrev Col := List Cell

/-- A dataframe: named columns in order. -/
abbrev DF := List (String × Col)

/-- Split a character list on a separator, keeping empty segments, as
Python str.split with an explicit separator does. -/
def splitOnSep (sep : Char) : List Char → List (List Char)
  | [] => [[]]
  | c :: cs =>
    if c = sep then [] :: splitOnSep sep cs
    else
      match splitOnSep sep cs with
      | [] => [[c]]
      | r :: rs => (c :: r) :: rs

/-- Read a nonempty all-digit character list as a number. -/
def digitsToNat? (cs : List Char) : Option Nat :=
  if cs ≠ [] ∧ cs.all Char.isDigit then
    some (cs.foldl (fun n c => 10 * n + (c.toNat - 48)) 0)
  else none

/-- Model of pd.to_datetime on a string with errors coerced: accepts an
ISO date YYYY-MM-DD (months 1..12, days 1..31) or a bare four-digit year
(parsed as January 1 of that year, as pandas does); anything else yields
none (NaT). -/
def parseDate (s : String) : Option Date :=
  match splitOnSep '-' s.toList with
  | [ys, ms, ds] =>
    match digitsToNat? ys, digitsToNat? ms, digitsToNat? ds with
    | some y, some m, some d =>
      if ys.length = 4 ∧ 1 ≤ m ∧ m ≤ 12 ∧ 1 ≤ d ∧ d ≤ 31 then some ⟨y, m, d⟩ else none
    | _, _, _ => none
  | [ys] =>
    match digitsToNat? ys with
    | some y => if ys.length = 4 then some ⟨y, 1, 1⟩ else none
    | none => none
  | _ => none

/-- The fill value pd.to_datetime applied to the default "1900-01-01"
(main.py line 50). -/
def baselineDate : Date := ⟨1900, 1, 1⟩

/-- Semantics of df[col].astype(str) followed by pd.to_datetime(..,
errors coerced) on one cell (main.py lines 49-50): a NaN prints as "nan"
and coerces to NaT; a string is parsed; an integer prints as its digits
and is parsed (pandas accepts a four-digit year); a datetime prints as a
timestamp and parses back to the same datetime, so it is preserved. -/
def coerceDateCell : Cell → Option Date
  | Cell.null => none
  | Cell.str s => parseDate s
  | Cell.intV n => parseDate (toString n)
  | Cell.date d => some d

/-- One cell of the publish_time treatment (main.py lines 49-50):
coerce to datetime, and fill a failed coercion with the baseline date. -/
def imputeDateCell (c : Cell) : Cell :=
  match coerceDateCell c with
  | some d => Cell.date d
  | none => Cell.date baselineDate

/-- Series.fillna on one cell: replace null by the given value. -/
def fillCell (v : Cell) (c : Cell) : Cell :=
  match c with
  | Cell.null => v
  | c => c

/-- The replacements dict of handle_missing (main.py lines 25-42). -/
def replacements : List (String × Cell) :=
  [("title", Cell.str "No Title"),
   ("doi", Cell.str "No DOI"),
   ("pmcid", Cell.str "No PMCID"),
   ("pubmed_id", Cell.str "No PubMed ID"),
   ("abstract", Cell.str "No Abstract"),
   ("publish_time", Cell.str "1900-01-01"),
   ("authors", Cell.str "Unknown Authors"),
   ("journal", Cell.str "Unknown Journal"),
   ("who_covidence_id", Cell.str "No Covidence ID"),
   ("arxiv_id", Cell.str "No ArXiv ID"),
   ("pdf_json_files", Cell.str "No PDF JSON"),
   ("pmc_json_files", Cell.str "No PMC JSON"),
   ("url", Cell.str "No URL"),
   ("sha", Cell.str "No SHA"),
   ("mag_id", Cell.intV 0),
   ("s2_id", Cell.intV 0)]

/-- The Default Table entry for a field name, if any. -/
def lookupRepl (name : String) : Option Cell :=
  (replacements.find? (fun p => p.1 == name)).map (fun p => p.2)

/-- The loop body of handle_missing for one column (main.py lines 45-52):
a column with no replacements entry is untouched; publish_time is coerced
to datetime with the baseline-date fill; every other covered column is
filled with its default. -/
def applyRepl (name : String) (col : Col) : Col :=
  match lookupRepl name with
  | none => col
  | some v =>
    if name = "publish_time" then col.map imputeDateCell
    else col.map (fillCell v)

/-- handle_missing (main.py lines 21-54): the replacement loop applied to
every column of the dataframe. Each iteration rewrites one named column
and columns are independent, so the loop is a per-column map. -/
def handle_missing (df : DF) : DF :=
  df.map (fun c => (c.1, applyRepl c.1 c.2))

/-- Every default value in the replacements dict is non-null. -/
theorem replacements_ne_null : ∀ p ∈ replacements, p.2 ≠ Cell.null := by decide

theorem fillCell_ne_null {v : Cell} (hv : v ≠ Cell.null) (c : Cell) :
    fillCell v c ≠ Cell.null := by
  cases c with
  | null => exact hv
  | str s => simp [fillCell]
  | intV n => simp [fillCell]
  | date d => simp [fillCell]

theorem imputeDateCell_date (c : Cell) : ∃ d, imputeDateCell c = Cell.date d := by
  unfold imputeDateCell
  cases coerceDateCell c <;> exact ⟨_, rfl⟩

theorem imputeDateCell_idem (c : Cell) :
    imputeDateCell (imputeDateCell c) = imputeDateCell c := by
  obtain ⟨d, hd⟩ := imputeDateCell_date c
  rw [hd]
  rfl

theorem lookupRepl_mem {name : String} {v : Cell} (h : lookupRepl name = some v) :
    (name, v) ∈ replacements := by
  unfold lookupRepl at h
  cases hf : replacements.find? (fun p => p.1 == name) with
  | none => rw [hf] at h; exact absurd h (by simp)
  | some p =>
    rw [hf] at h
    have hp := List.find?_some hf
    have hmem := List.mem_of_find?_eq_some hf
    simp at h hp
    rw [← h, ← hp]
    exact hmem

theorem lookupRepl_ne_null {name : String} {v : Cell} (h : lookupRepl name = some v) :
    v ≠ Cell.null :=
  replacements_ne_null _ (lookupRepl_mem h)

theorem fillCell_idem {v : Cell} (hv : v ≠ Cell.null) (c : Cell) :
    fillCell v (fillCell v c) = fillCell v c := by
  cases c with
  | null =>
    show fillCell v v = v
    cases v with
    | null => exact absurd rfl hv
    | str s => rfl
    | intV n => rfl
    | date d => rfl
  | str s => rfl
  | intV n => rfl
  | date d => rfl

/-- The per-column replacement step is idempotent. -/
theorem applyRepl_idem (name : String) (col : Col) :
    applyRepl name (applyRepl name col) = applyRepl name col := by
  unfold applyRepl
  cases h : lookupRepl name with
  | none => rfl
  | some v =>
    dsimp only
    by_cases hp : name = "publish_time"
    · rw [if_pos hp, if_pos hp, List.map_map]
      exact List.map_congr_left (fun c _ => imputeDateCell_idem c)
    · rw [if_neg hp, if_neg hp, List.map_map]
      exact List.map_congr_left (fun c _ => fillCell_idem (lookupRepl_ne_null h) c)

/-- handle_missing is idempotent. -/
theorem handle_missing_idem (df : DF) :
    handle_missing (handle_missing df) = handle_missing df := by
  unfold handle_missing
  rw [List.map_map]
  exact List.map_congr_left (fun c _ => by simp [applyRepl_idem])

/-- C1. Imputation is idempotent: applying handle_missing (the fixed
Default Table, including the datetime-coerced publish_time field) twice
yields exactly the dataset obtained by applying it once. -/
theorem C1_impute_idempotent (df : DF) :
    handle_missing (handle_missing df) = handle_missing df :=
  handle_missing_idem df

/-- A column covered by the Default Table holds no null after its
replacement step. -/
theorem applyRepl_no_null {name : String} {v : Cell} (h : lookupRepl name = some v)
    (col : Col) : ∀ c ∈ applyRepl name col, c ≠ Cell.null := by
  intro c hc
  unfold applyRepl at hc
  rw [h] at hc
  dsimp only at hc
  by_cases hp : name = "publish_time"
  · rw [if_pos hp] at hc
    obtain ⟨c', _, rfl⟩ := List.mem_map.mp hc
    obtain ⟨d, hd⟩ := imputeDateCell_date c'
    rw [hd]
    simp
  · rw [if_neg hp] at hc
    obtain ⟨c', _, rfl⟩ := List.mem_map.mp hc
    exact fillCell_ne_null (lookupRepl_ne_null h) c'

/-- C2. Default coverage: after handle_missing, a column that has a
Default Table entry contains no null cell, and a column with no entry
passes through unchanged (so it may remain null). -/
theorem C2_default_coverage (df : DF) :
    (∀ name col, (name, col) ∈ handle_missing df → (lookupRepl name).isSome →
      ∀ c ∈ col, c ≠ Cell.null) ∧
    (∀ name col, (name, col) ∈ df → lookupRepl name = none →
      (name, col) ∈ handle_missing df) := by
  constructor
  · intro name col hmem hsome c hc
    obtain ⟨⟨n0, c0⟩, hm, heq⟩ := List.mem_map.mp hmem
    injection heq with h1 h2
    subst h1
    subst h2
    obtain ⟨v, hv⟩ := Option.isSome_iff_exists.mp hsome
    exact applyRepl_no_null hv c0 c hc
  · intro name col hmem hnone
    have hstep : (name, applyRepl name col) ∈ handle_missing df :=
      List.mem_map.mpr ⟨(name, col), hmem, rfl⟩
    unfold applyRepl at hstep
    rw [hnone] at hstep
    exact hstep

/-- Witness for C2 at a one-column dataset with a covered column and at a
one-column dataset with an uncovered column. -/
theorem C2_default_coverage_witness :
    Cell.str "Unknown Journal" ≠ Cell.null ∧
      ("color", [Cell.null]) ∈ handle_missing [("color", [Cell.null])] := by
  constructor
  · exact (C2_default_coverage [("journal", [Cell.null])]).1 "journal"
      [Cell.str "Unknown Journal"] (by decide) (by decide)
      (Cell.str "Unknown Journal") (by decide)
  · exact (C2_default_coverage [("color", [Cell.null])]).2 "color" [Cell.null]
      (by decide) (by decide)

/-- The publish_time column step is exactly the per-cell date coercion
with baseline fill. -/
theorem applyRepl_publish (col : Col) :
    applyRepl "publish_time" col = col.map imputeDateCell := by
  unfold applyRepl
  rw [show lookupRepl "publish_time" = some (Cell.str "1900-01-01") from by decide]
  dsimp only
  rw [if_pos rfl]

/-- C3. Date fallback: a raw publish_time value that is null, the empty
string, or an unparseable string is imputed to the baseline date
1900-01-01 exactly; missing and unparseable values are treated
identically, and the (total) coercion signals no error. -/
theorem C3_date_fallback (pre post : Col) (c : Cell)
    (hc : c = Cell.null ∨ c = Cell.str "" ∨ c = Cell.str "not-a-date") :
    handle_missing [("publish_time", pre ++ c :: post)] =
      [("publish_time",
        pre.map imputeDateCell ++ Cell.date baselineDate :: post.map imputeDateCell)] := by
  have hcell : imputeDateCell c = Cell.date baselineDate := by
    rcases hc with h | h | h <;> subst h <;> decide
  show [("publish_time", applyRepl "publish_time" (pre ++ c :: post))] = _
  rw [applyRepl_publish, List.map_append, List.map_cons, hcell]

/-- Witness for C3 at a record whose publish_time is null. -/
theorem C3_date_fallback_witness :
    (Cell.null = Cell.null ∨ Cell.null = Cell.str "" ∨
      Cell.null = Cell.str "not-a-date") ∧
    handle_missing [("publish_time", [Cell.null])] =
      [("publish_time", [Cell.date baselineDate])] :=
  ⟨Or.inl rfl, C3_date_fallback [] [] Cell.null (Or.inl rfl)⟩

/-! ### Aggregation: pandas value_counts, sort_index and boolean masks -/

/-- Distinct values of the second list in order of first appearance,
skipping those already seen; this is the key order the pandas counting
hashtable produces. -/
def uniquesAux {α : Type} [DecidableEq α] : List α → List α → List α
  | _, [] => []
  | seen, x :: xs =>
    if x ∈ seen then uniquesAux seen xs else x :: uniquesAux (x :: seen) xs

/-- Distinct values of a list in order of first appearance. -/
def uniques {α : Type} [DecidableEq α] (l : List α) : List α :=
  uniquesAux [] l

/-- Insert into a count-descending list, before the first entry whose key
is not larger. -/
def insertDesc {α : Type} (key : α → Nat) (p : α) : List α → List α
  | [] => [p]
  | q :: qs => if key q ≤ key p then p :: q :: qs else q :: insertDesc key p qs

/-- Sort by key descending. pandas sort_values with ascending disabled
uses an unstable quicksort by default and documents no order among equal
keys, so an executable model must pick one concrete order; this
insertion sort is that representative, and no theorem below depends on
how it arranges equal keys. -/
def sortDesc {α : Type} (key : α → Nat) : List α → List α
  | [] => []
  | p :: ps => insertDesc key p (sortDesc key ps)

/-- Insert into a key-ascending list before the first entry with a key
not smaller; a stable ascending insertion. -/
def insertAsc {α : Type} (key : α → Nat) (p : α) : List α → List α
  | [] => [p]
  | q :: qs => if key p ≤ key q then p :: q :: qs else q :: insertAsc key p qs

/-- Stable sort by key ascending (pandas sort_index). -/
def sortAsc {α : Type} (key : α → Nat) : List α → List α
  | [] => []
  | p :: ps => insertAsc key p (sortAsc key ps)

/-- Series.value_counts on non-null values: pair each distinct value, in
order of first appearance, with its number of occurrences, then sort by
count descending. pandas guarantees only the descending counts, not the
relative order of equal counts; every theorem below that looks at a
value_counts result is invariant under reordering, reading it only up to
permutation or after an order-erasing filter. -/
def value_counts {α : Type} [DecidableEq α] (l : List α) : List (α × Nat) :=
  sortDesc Prod.snd ((uniques l).map (fun a => (a, l.count a)))

/-- Year extraction (main.py lines 154-158): the rows whose publish_time
holds a datetime contribute their year; null (NaT) and any non-datetime
cell contribute nothing. -/
def yearsOf (col : Col) : List Nat :=
  col.filterMap (fun c => match c with | Cell.date d => some d.y | _ => none)

/-- publication_year_counts (main.py line 161): count papers per year of
the valid dates and sort by year; value_counts drops the rows whose year
is missing. -/
def publication_year_counts (col : Col) : List (Nat × Nat) :=
  sortAsc Prod.fst (value_counts (yearsOf col))

/-- filtered_counts (main.py lines 164-167): the boolean mask keeping the
year keys inside the inclusive selected range. -/
def filtered_counts (y0 y1 : Nat) (col : Col) : List (Nat × Nat) :=
  (publication_year_counts col).filter (fun p => decide (y0 ≤ p.1 ∧ p.1 ≤ y1))

theorem mem_uniquesAux {α : Type} [DecidableEq α] :
    ∀ (l seen : List α) (a : α), a ∈ uniquesAux seen l ↔ (a ∈ l ∧ a ∉ seen)
  | [], seen, a => by simp [uniquesAux]
  | x :: xs, seen, a => by
    unfold uniquesAux
    by_cases hx : x ∈ seen
    · rw [if_pos hx, mem_uniquesAux xs seen a]
      constructor
      · rintro ⟨h1, h2⟩
        exact ⟨List.mem_cons_of_mem x h1, h2⟩
      · rintro ⟨h1, h2⟩
        rcases List.mem_cons.mp h1 with rfl | h1
        · exact absurd hx h2
        · exact ⟨h1, h2⟩
    · rw [if_neg hx, List.mem_cons, mem_uniquesAux xs (x :: seen) a]
      constructor
      · rintro (rfl | ⟨h1, h2⟩)
        · exact ⟨List.mem_cons_self a xs, hx⟩
        · exact ⟨List.mem_cons_of_mem x h1, fun hs => h2 (List.mem_cons_of_mem x hs)⟩
      · rintro ⟨h1, h2⟩
        by_cases hax : a = x
        · exact Or.inl hax
        · rcases List.mem_cons.mp h1 with rfl | h1
          · exact absurd rfl hax
          · refine Or.inr ⟨h1, fun hs => ?_⟩
            rcases List.mem_cons.mp hs with rfl | hs
            · exact hax rfl
            · exact h2 hs

theorem mem_uniques {α : Type} [DecidableEq α] {l : List α} {a : α} :
    a ∈ uniques l ↔ a ∈ l := by
  rw [uniques, mem_uniquesAux]
  simp

theorem nodup_uniquesAux {α : Type} [DecidableEq α] :
    ∀ (l seen : List α), (uniquesAux seen l).Nodup
  | [], _ => List.nodup_nil
  | x :: xs, seen => by
    unfold uniquesAux
    by_cases hx : x ∈ seen
    · rw [if_pos hx]
      exact nodup_uniquesAux xs seen
    · rw [if_neg hx]
      refine (nodup_uniquesAux xs (x :: seen)).cons (fun hmem => ?_)
      exact ((mem_uniquesAux xs (x :: seen) x).mp hmem).2 (List.mem_cons_self x seen)

theorem nodup_uniques {α : Type} [DecidableEq α] (l : List α) : (uniques l).Nodup :=
  nodup_uniquesAux l []

theorem insertDesc_perm {α : Type} (key : α → Nat) (p : α) :
    ∀ l : List α, (insertDesc key p l).Perm (p :: l)
  | [] => List.Perm.refl _
  | q :: qs => by
    unfold insertDesc
    by_cases h : key q ≤ key p
    · rw [if_pos h]
    · rw [if_neg h]
      exact (((insertDesc_perm key p qs).cons q).trans (List.Perm.swap p q qs))

theorem sortDesc_perm {α : Type} (key : α → Nat) :
    ∀ l : List α, (sortDesc key l).Perm l
  | [] => List.Perm.refl _
  | p :: ps =>
    (insertDesc_perm key p (sortDesc key ps)).trans ((sortDesc_perm key ps).cons p)

theorem insertAsc_perm {α : Type} (key : α → Nat) (p : α) :
    ∀ l : List α, (insertAsc key p l).Perm (p :: l)
  | [] => List.Perm.refl _
  | q :: qs => by
    unfold insertAsc
    by_cases h : key p ≤ key q
    · rw [if_pos h]
    · rw [if_neg h]
      exact (((insertAsc_perm key p qs).cons q).trans (List.Perm.swap p q qs))

theorem sortAsc_perm {α : Type} (key : α → Nat) :
    ∀ l : List α, (sortAsc key l).Perm l
  | [] => List.Perm.refl _
  | p :: ps =>
    (insertAsc_perm key p (sortAsc key ps)).trans ((sortAsc_perm key ps).cons p)

/-- value_counts is a permutation of the first-appearance count table. -/
theorem value_counts_perm {α : Type} [DecidableEq α] (l : List α) :
    (value_counts l).Perm ((uniques l).map (fun a => (a, l.count a))) :=
  sortDesc_perm _ _

/-- The distinct values of l in first-appearance order are a permutation
of pandas dedup order. -/
theorem uniques_perm_dedup {α : Type} [DecidableEq α] (l : List α) :
    (uniques l).Perm l.dedup :=
  (List.perm_ext_iff_of_nodup (nodup_uniques l) (List.nodup_dedup l)).mpr
    (fun a => by rw [mem_uniques, List.mem_dedup])

/-- C4. Year-count conservation: the per-year counts produced before the
range filter sum to the number of records whose date field holds a
parseable date; records with an unparseable or missing date contribute to
no year. -/
theorem C4_year_count_conservation (col : Col) :
    ((publication_year_counts col).map Prod.snd).sum = (yearsOf col).length := by
  have h1 : (publication_year_counts col).Perm
      ((uniques (yearsOf col)).map (fun a => (a, (yearsOf col).count a))) :=
    (sortAsc_perm _ _).trans (value_counts_perm _)
  have h2 := (h1.map Prod.snd).sum_eq
  rw [h2, List.map_map]
  have h3 : ((uniques (yearsOf col)).map (Prod.snd ∘ fun a => (a, (yearsOf col).count a))).Perm
      ((yearsOf col).dedup.map (fun a => (yearsOf col).count a)) :=
    (uniques_perm_dedup (yearsOf col)).map _
  rw [h3.sum_eq]
  exact List.sum_map_count_dedup_eq_length (yearsOf col)

/-- C5. Range filter correctness: every key of the filtered year counts
lies in the inclusive range, and every year in the range with a nonzero
unfiltered count appears, carrying exactly that count. -/
theorem C5_range_filter (col : Col) (y0 y1 : Nat) :
    (∀ p ∈ filtered_counts y0 y1 col, y0 ≤ p.1 ∧ p.1 ≤ y1) ∧
    (∀ y : Nat, y0 ≤ y → y ≤ y1 → 0 < (yearsOf col).count y →
      (y, (yearsOf col).count y) ∈ filtered_counts y0 y1 col) := by
  constructor
  · intro p hp
    have := (List.mem_filter.mp hp).2
    exact of_decide_eq_true this
  · intro y hy0 hy1 hpos
    have hmem : y ∈ uniques (yearsOf col) :=
      mem_uniques.mpr (List.count_pos_iff.mp hpos)
    have hpair : (y, (yearsOf col).count y) ∈
        (uniques (yearsOf col)).map (fun a => (a, (yearsOf col).count a)) :=
      List.mem_map.mpr ⟨y, hmem, rfl⟩
    have hvc : (y, (yearsOf col).count y) ∈ publication_year_counts col :=
      ((sortAsc_perm _ _).trans (value_counts_perm _)).mem_iff.mpr hpair
    exact List.mem_filter.mpr ⟨hvc, decide_eq_true ⟨hy0, hy1⟩⟩

/-- Witness for C5 at a one-record dataset dated 2020 and range
2019..2021. -/
theorem C5_range_filter_witness :
    (2020, (yearsOf [Cell.date ⟨2020, 5, 1⟩]).count 2020) ∈
      filtered_counts 2019 2021 [Cell.date ⟨2020, 5, 1⟩] :=
  (C5_range_filter [Cell.date ⟨2020, 5, 1⟩] 2019 2021).2 2020
    (by decide) (by decide) (by decide)

/-! ### Categorical ranking: journals and sources -/

/-- journal_counts (main.py line 198): value_counts over the journal
column; pandas drops null cells before counting. -/
def journal_counts (col : Col) : List (Cell × Nat) :=
  value_counts (col.filter (fun c => decide (c ≠ Cell.null)))

/-- valid_journals (main.py line 200): the boolean mask dropping the
imputation sentinel from the ranking. -/
def valid_journals (col : Col) : List (Cell × Nat) :=
  (journal_counts col).filter (fun p => decide (p.1 ≠ Cell.str "Unknown Journal"))

/-- Series.head with the pandas integer semantics: the first n entries
for nonnegative n, and everything but the last |n| entries for negative
n (iloc up to n). -/
def dfHead {α : Type} (n : Int) (l : List α) : List α :=
  if 0 ≤ n then l.take n.toNat else l.take (l.length - (-n).toNat)

/-- top_journals (main.py line 203). -/
def top_journals (col : Col) (n : Int) : List (Cell × Nat) :=
  dfHead n (valid_journals col)

/-- source_counts (main.py line 302): a plain value_counts over the
source column, with no placeholder exclusion. -/
def source_counts (col : Col) : List (Cell × Nat) :=
  value_counts (col.filter (fun c => decide (c ≠ Cell.null)))

/-- C6 as stated fails for the source ranking: source_counts applies no
placeholder exclusion, so a source value equal to the sentinel appears in
its output. -/
theorem C6_counterexample :
    (Cell.str "Unknown Journal", 1) ∈ source_counts [Cell.str "Unknown Journal"] := by
  decide

/-- C6 amended: the placeholder never appears in the journal ranking, and
the four-record example ranks as claimed; the source ranking performs no
placeholder exclusion. -/
theorem C6_placeholder_exclusion (col : Col) (n : Int) :
    (∀ p ∈ top_journals col n, p.1 ≠ Cell.str "Unknown Journal") ∧
    top_journals [Cell.str "Unknown Journal", Cell.str "Journal A",
        Cell.str "Journal A", Cell.str "Journal B"] 2 =
      [(Cell.str "Journal A", 2), (Cell.str "Journal B", 1)] := by
  constructor
  · intro p hp
    have hp1 : p ∈ valid_journals col := by
      unfold top_journals dfHead at hp
      by_cases h : (0 : Int) ≤ n
      · rw [if_pos h] at hp
        exact (List.take_sublist _ _).subset hp
      · rw [if_neg h] at hp
        exact (List.take_sublist _ _).subset hp
    exact of_decide_eq_true (List.mem_filter.mp hp1).2
  · decide

/-- Witness for C6 at a one-journal column and n equal to one. -/
theorem C6_placeholder_exclusion_witness :
    Cell.str "Journal A" ≠ Cell.str "Unknown Journal" :=
  (C6_placeholder_exclusion [Cell.str "Journal A"] 1).1
    (Cell.str "Journal A", 1) (by decide)

/-- C10 as stated fails: invoking the journal ranking with a negative n
silently returns an ordinary truncated result (pandas head drops the
last |n| rows) instead of failing fast with an invalid-argument signal. -/
theorem C10_counterexample :
    top_journals [Cell.str "Journal A", Cell.str "Journal A",
        Cell.str "Journal B"] (-1) =
      [(Cell.str "Journal A", 2)] := by
  decide

/-- C10 amended: a negative n is not rejected; every call is total and
head returns all entries but the last |n|. No component of the embedded
pipeline signals an error. -/
theorem C10_no_fail_fast (col : Col) (n : Int) (hn : n < 0) :
    top_journals col n =
      (valid_journals col).take ((valid_journals col).length - (-n).toNat) := by
  unfold top_journals dfHead
  rw [if_neg (by omega)]

/-- Witness for the amended C10 at n equal to minus one. -/
theorem C10_no_fail_fast_witness :
    top_journals [Cell.str "Journal A"] (-1) =
      (valid_journals [Cell.str "Journal A"]).take
        ((valid_journals [Cell.str "Journal A"]).length - (Int.toNat (-(-1)))) :=
  C10_no_fail_fast [Cell.str "Journal A"] (-1) (by decide)

/-! ### Text frequency pipeline -/

/-- Zero-padded two-digit month or day component. -/
def pad2 (n : Nat) : String := if n < 10 then "0" ++ toString n else toString n

/-- Python str() of one cell under astype(str): NaN prints as "nan", a
datetime prints as its timestamp. -/
def cellToStr : Cell → String
  | Cell.null => "nan"
  | Cell.str s => s
  | Cell.intV n => toString n
  | Cell.date d => toString d.y ++ "-" ++ pad2 d.m ++ "-" ++ pad2 d.d ++ " 00:00:00"

/-- The space join of Python sep.join over a list of strings, as a
character list. -/
def joinSpace : List String → List Char
  | [] => []
  | [s] => s.toList
  | s :: ss => s.toList ++ (' ' :: joinSpace ss)

/-- all_titles (main.py line 232): the title cells joined with spaces and
lowercased, as a character list. -/
def all_titles (col : Col) : List Char :=
  (joinSpace (col.map cellToStr)).map Char.toLower

/-- A regex word character over the lowercased text: letter, digit or
underscore. -/
def isWordChar (c : Char) : Bool := c.isAlphanum || c = '_'

/-- Maximal runs of word characters of the text, in order; the first
argument accumulates the current run reversed. -/
def wordRunsAux : List Char → List Char → List (List Char)
  | cur, [] => if cur.isEmpty then [] else [cur.reverse]
  | cur, c :: cs =>
    if isWordChar c then wordRunsAux (c :: cur) cs
    else if cur.isEmpty then wordRunsAux [] cs
    else cur.reverse :: wordRunsAux [] cs

/-- Whether a run matches the lowercase-letters pattern of length at
least three. -/
def isLowerRun (r : List Char) : Bool :=
  decide (3 ≤ r.length) && r.all (fun c => decide ('a' ≤ c ∧ c ≤ 'z'))

/-- words (main.py line 240): re.findall of word-boundary lowercase
letter runs of length at least three equals the maximal word-character
runs that are all lowercase letters and long enough. -/
def words (col : Col) : List String :=
  ((wordRunsAux [] (all_titles col)).filter isLowerRun).map (fun r => String.mk r)

/-- The stop-word set of main.py lines 235-238. -/
def stop_words : List String :=
  ["the", "and", "of", "in", "to", "a", "for", "on", "with", "by",
   "an", "at", "from", "as", "is", "are", "this", "that", "these",
   "those", "be", "was", "were", "has", "have", "had", "but", "or",
   "not", "no", "yes", "covid", "19", "sars", "cov", "2", "coronavirus"]

/-- filtered_words (main.py line 241): drop the stop words. -/
def filtered_words (col : Col) : List String :=
  (words col).filter (fun w => decide (¬ w ∈ stop_words))

/-- C8. Tokenization: on the title "COVID-19 vaccine study of
SARS-CoV-2 immunity" the token list produced by the text-frequency
pipeline contains vaccine, study and immunity, and contains none of 19,
2, of, covid, sars, cov. -/
theorem C8_tokenization :
    ("vaccine" ∈ filtered_words [Cell.str "COVID-19 vaccine study of SARS-CoV-2 immunity"]) ∧
    ("study" ∈ filtered_words [Cell.str "COVID-19 vaccine study of SARS-CoV-2 immunity"]) ∧
    ("immunity" ∈ filtered_words [Cell.str "COVID-19 vaccine study of SARS-CoV-2 immunity"]) ∧
    ("19" ∉ filtered_words [Cell.str "COVID-19 vaccine study of SARS-CoV-2 immunity"]) ∧
    ("2" ∉ filtered_words [Cell.str "COVID-19 vaccine study of SARS-CoV-2 immunity"]) ∧
    ("of" ∉ filtered_words [Cell.str "COVID-19 vaccine study of SARS-CoV-2 immunity"]) ∧
    ("covid" ∉ filtered_words [Cell.str "COVID-19 vaccine study of SARS-CoV-2 immunity"]) ∧
    ("sars" ∉ filtered_words [Cell.str "COVID-19 vaccine study of SARS-CoV-2 immunity"]) ∧
    ("cov" ∉ filtered_words [Cell.str "COVID-19 vaccine study of SARS-CoV-2 immunity"]) := by
  decide

/-! ### The call-site effect of handle_missing -/

/-- Model of the call handle_missing(df) at a call site: every statement
of the function assigns a column on its argument (df[col] = ...), which
mutates the caller's dataframe object in place, and the function returns
that same object. The first component is the returned dataframe and the
second is the state of the caller's dataframe after the call; both hold
the imputed data. -/
def handleMissingCall (df : DF) : DF × DF :=
  (handle_missing df, handle_missing df)

/-- C9 as stated fails: the dataset passed to handle_missing is changed
by the call whenever imputation rewrites any value, because the column
assignments mutate the argument in place. -/
theorem C9_counterexample :
    (handleMissingCall [("title", [Cell.null])]).2 ≠ [("title", [Cell.null])] := by
  decide

/-- C9 amended: handle_missing is deterministic and returns the imputed
dataset, but its only side effect is updating its argument in place to
that same returned dataset; the argument is therefore left unchanged
exactly when imputation changes nothing, for instance on an
already-imputed dataset. -/
theorem C9_purity_amended (df : DF) :
    (handleMissingCall df).1 = handle_missing df ∧
    (handleMissingCall df).2 = (handleMissingCall df).1 ∧
    (handleMissingCall (handle_missing df)).2 = handle_missing df :=
  ⟨rfl, rfl, handle_missing_idem df⟩

end Cord19
